import Mathlib

/-!
Shallow embedding of `src/main.py` (assignment-game): the UserManager
profile/leaderboard store, the clarification-phase loop, the execution-phase
bundle logic, the enhancement pass and the deterministic fallback bundle,
together with theorems settling the specification claims.

Python strings are modelled as `String` (with helper primitives on
`List Char`), Python ints as `Int`, Python dicts as insertion-ordered
association lists (matching CPython's insertion-ordered dict semantics).
-/

namespace GameBuilder

/-! ## Python string primitives -/

/-- Does `s` begin with `sub`? -/
def startsWith : List Char → List Char → Bool
  | [], _ => true
  | _ :: _, [] => false
  | c :: cs, d :: ds => c == d && startsWith cs ds

/-- Python `s.split(sep)` for non-empty `sep` — the scan that underlies
`split`, `replace`, `count` and `in`: cut `s` at every leftmost
non-overlapping occurrence of `sep`.  The recursion is made structural by an
explicit fuel so that concrete instances reduce in the kernel; every step
consumes at least one character, so fuel `s.length` is never exhausted. -/
def splitFuel (sep : List Char) : Nat → List Char → List (List Char)
  | _, [] => [[]]
  | 0, s => [s]
  | fuel + 1, c :: rest =>
    if sep ≠ [] ∧ startsWith sep (c :: rest) then
      [] :: splitFuel sep fuel ((c :: rest).drop sep.length)
    else
      match splitFuel sep fuel rest with
      | [] => [[c]]
      | seg :: t => (c :: seg) :: t

/-- Python `s.split(sep)` (the source only splits on non-empty separators). -/
def splitOnPy (sep s : List Char) : List (List Char) :=
  splitFuel sep s.length s

/-- Python `sub in s` for non-empty `sub`: the split has a second segment. -/
def containsSub (sub s : List Char) : Bool :=
  decide (2 ≤ (splitOnPy sub s).length)

/-- Python `s.replace(old, new)` for non-empty `old`: replacing every
non-overlapping occurrence of `old` is joining the `old`-split with `new`. -/
def replaceAll (old new s : List Char) : List Char :=
  List.intercalate new (splitOnPy old s)

/-- Python `s.count(sub)` for non-empty `sub`: non-overlapping occurrences. -/
def countOccur (sub s : List Char) : Nat :=
  (splitOnPy sub s).length - 1

/-- Python `s.strip()`: drop whitespace from both ends. -/
def stripPy (s : List Char) : List Char :=
  ((s.dropWhile Char.isWhitespace).reverse.dropWhile Char.isWhitespace).reverse

/-- Python `s.title()`: the boolean tracks whether the previous character was
alphabetic; an alphabetic character is uppercased at a word boundary and
lowercased inside a word. -/
def titlePy : Bool → List Char → List Char
  | _, [] => []
  | prev, c :: rest =>
    if c.isAlpha then
      (if prev then c.toLower else c.toUpper) :: titlePy true rest
    else
      c :: titlePy false rest

/-- `String` wrapper: Python `s.replace(old, new)`. -/
def pyReplace (s old new : String) : String := ⟨replaceAll old.data new.data s.data⟩

/-- `String` wrapper: Python `sub in s`. -/
def pyContains (s sub : String) : Bool := containsSub sub.data s.data

/-- `String` wrapper: Python `s.count(sub)`. -/
def pyCount (s sub : String) : Nat := countOccur sub.data s.data

/-- `String` wrapper: Python `s.split(sep)`. -/
def pySplit (s sep : String) : List String := (splitOnPy sep.data s.data).map String.mk

/-- `String` wrapper: Python `s.strip()`. -/
def pyStrip (s : String) : String := ⟨stripPy s.data⟩

/-- `String` wrapper: Python `s.lower()`. -/
def pyLower (s : String) : String := ⟨s.data.map Char.toLower⟩

/-- `String` wrapper: Python `s.title()`. -/
def pyTitle (s : String) : String := ⟨titlePy false s.data⟩

/-! ## Python dicts as insertion-ordered association lists -/

/-- Python `d[k]` lookup (dict keys are unique; the first binding wins). -/
def getF {α : Type} (fs : List (String × α)) (k : String) : Option α :=
  match fs with
  | [] => none
  | kv :: rest => if kv.1 == k then some kv.2 else getF rest k

/-- Python `k in d`. -/
def hasF {α : Type} (fs : List (String × α)) (k : String) : Bool :=
  (getF fs k).isSome

/-- Python `d[k] = v`: update the existing binding in place (CPython keeps the
insertion position), otherwise append a new binding. -/
def setF {α : Type} (fs : List (String × α)) (k : String) (v : α) : List (String × α) :=
  match fs with
  | [] => [(k, v)]
  | kv :: rest =>
    if kv.1 == k then (k, v) :: rest else kv :: setF rest k v

/-- Python `d.get(k, default)`. -/
def getD {α : Type} (fs : List (String × α)) (k : String) (dflt : α) : α :=
  match getF fs k with
  | some v => v
  | none => dflt

/-! ## UserManager (src/main.py lines 45-127)

One entry of `games_history` (the dict literal appended at lines 101-107). -/

structure GameResult where
  game : String
  score : Int
  level : Int
  won : Bool
  date : String
deriving DecidableEq, Repr

/-- A user profile (the dict literal created at lines 73-82). `created_at`,
`last_played` and history dates come from `datetime.now()`, which is passed in
explicitly as a `now` argument wherever the source calls it. -/
structure UserProfile where
  username : String
  display_name : String
  games_played : Int
  total_score : Int
  high_score : Int
  games_history : List GameResult
  created_at : String
  last_played : Option String
deriving DecidableEq, Repr

/-- The profile store: one JSON object keyed by normalized username, modelled
as an insertion-ordered association list (CPython dict iteration order). -/
abbrev Users := List (String × UserProfile)

/-- Contents found in `users.json` at load time: missing file, a file whose
read or JSON parse raises, or a successfully parsed store. -/
inductive StoredFile where
  | missing
  | corrupt
  | parsed (users : Users)
deriving DecidableEq

/-- `UserManager.load_users` (lines 53-62): a missing file and a file whose
read/parse raises both silently yield the empty store; the `except` clause
swallows the error, so the function is total and no error propagates. -/
def load_users : StoredFile → Users
  | .missing => []
  | .corrupt => []
  | .parsed u => u

/-- `UserManager.save_users` (lines 64-67): the whole store is rewritten as
the new file contents. -/
def save_users (users : Users) : StoredFile :=
  .parsed users

/-- `UserManager` mutable state: the store, `self.current_user` (a reference
into the store, modelled by the key it aliases), and the on-disk file. -/
structure UMState where
  users : Users
  current_user : Option String
  file : StoredFile

/-- `username.strip().lower()` (line 71). -/
def normalizeUsername (username : String) : String :=
  pyLower (pyStrip username)

/-- The fresh profile dict created at lines 73-82. -/
def freshProfile (username : String) (now : String) : UserProfile :=
  { username := username
    display_name := pyTitle username
    games_played := 0
    total_score := 0
    high_score := 0
    games_history := []
    created_at := now
    last_played := none }

/-- `UserManager.get_or_create_user` (lines 69-86): normalize, create-and-save
if absent, set `current_user`, return the stored profile. -/
def get_or_create_user (st : UMState) (username : String) (now : String) :
    UMState × UserProfile :=
  let key := normalizeUsername username
  match getF st.users key with
  | some p =>
      ({ st with current_user := some key }, p)
  | none =>
      let users := setF st.users key (freshProfile key now)
      let p := freshProfile key now
      ({ users := users, current_user := some key, file := save_users users }, p)

/-- The pure profile update performed by `update_user_score` on
`self.current_user` (lines 93-111): bump counters, set `last_played`, take the
max of the high score, append the history entry and keep only the last 10. -/
def recordResult (p : UserProfile) (game_title : String) (score level : Int)
    (won : Bool) (now : String) : UserProfile :=
  let p := { p with
    games_played := p.games_played + 1
    total_score := p.total_score + score
    last_played := some now }
  let p := if score > p.high_score then { p with high_score := score } else p
  let hist := p.games_history ++ [⟨game_title, score, level, won, now⟩]
  let hist := if hist.length > 10 then hist.drop (hist.length - 10) else hist
  { p with games_history := hist }

/-- `UserManager.update_user_score` (lines 88-113): no-op without a current
user; otherwise mutate the profile aliased by `current_user` (mutating it in
the store, since `current_user` references the stored dict) and save. -/
def update_user_score (st : UMState) (game_title : String) (score level : Int)
    (won : Bool) (now : String) : UMState :=
  match st.current_user with
  | none => st
  | some key =>
    match getF st.users key with
    | none => st
    | some p =>
      let p := recordResult p game_title score level won now
      let users := setF st.users key p
      { users := users, current_user := some key, file := save_users users }

/-- One leaderboard entry (the dict literal at lines 119-123; the `username`
field holds the profile's `display_name`, as in the source). -/
structure LBEntry where
  username : String
  high_score : Int
  games_played : Int
deriving DecidableEq, Repr

/-- The comparison `leaderboard.sort(key=lambda x: x["high_score"], reverse=True)`
induces: `a` precedes `b` when `b.high_score ≤ a.high_score`.  CPython's sort
is stable and `reverse=True` keeps ties in original order, which is exactly
`List.insertionSort` with this relation. -/
def lbRel (a b : LBEntry) : Prop := b.high_score ≤ a.high_score

instance : DecidableRel lbRel := fun a b => Int.decLe _ _

instance : IsTotal LBEntry lbRel := ⟨fun a b => Int.le_total b.high_score a.high_score⟩

instance : IsTrans LBEntry lbRel := ⟨fun _ _ _ hab hbc => le_trans hbc hab⟩

/-- The entry list built by the `for username, data in self.users.items()`
loop (lines 117-123), in dict (insertion) order. -/
def leaderboardEntries (users : Users) : List LBEntry :=
  users.map fun kv =>
    LBEntry.mk kv.2.display_name kv.2.high_score kv.2.games_played

/-- `UserManager.get_leaderboard` (lines 115-127): build entries in dict
(insertion) order, stable-sort descending by `high_score`, truncate to 10. -/
def get_leaderboard (users : Users) : List LBEntry :=
  ((leaderboardEntries users).insertionSort lbRel).take 10

/-! ## Enhancement pass and fallback bundle (src/main.py lines 455-1412)

An artifact bundle / parsed JSON object of files: filename -> content. -/

abbrev Files := List (String × String)

/-- A RequirementSpec / GamePlan: a parsed JSON object of text fields. -/
abbrev Req := List (String × String)

/-- The literal assigned to `level_popup_code` in `_enhance_game_files`. -/
def level_popup_code : String :=
  "\n// Enhanced level up popup\nfunction showLevelUp() \x7b\n    const level = game.level;\n    const popup = document.createElement(\x27div\x27);\n    popup.className = \x27level-popup\x27;\n    popup.innerHTML = \x60\n        <div class=\"popup-content\">\n            <div class=\"popup-icon\">⭐</div>\n            <div class=\"popup-text\">Level $\x7blevel\x7d!</div>\n        </div>\n    \x60;\n    document.body.appendChild(popup);\n    \n    // Animate and remove\n    setTimeout(() => \x7b\n        popup.classList.add(\x27fade-out\x27);\n        setTimeout(() => popup.remove(), 500);\n    \x7d, 1500);\n\x7d\n\n// Replace existing level up code with popup\nconst originalLevelUp = checkLevelUp;\ncheckLevelUp = function() \x7b\n    if (originalLevelUp) originalLevelUp();\n    showLevelUp();\n\x7d;\n"

/-- The literal assigned to `username_section` in `_enhance_game_files`. -/
def username_section : String :=
  "\n    <!-- Username Section -->\n    <div class=\"username-section\">\n        <div class=\"username-container\">\n            <label for=\"username\">👤 Player Name:</label>\n            <input type=\"text\" id=\"username\" placeholder=\"Enter your name\" maxlength=\"20\">\n            <button onclick=\"saveUsername()\">Save</button>\n            <span id=\"currentUser\" class=\"current-user\"></span>\n        </div>\n    </div>\n"

/-- The literal assigned to `username_script` in `_enhance_game_files`. -/
def username_script : String :=
  "\n<script>\n// Username management\nfunction saveUsername() \x7b\n    const username = document.getElementById(\x27username\x27).value.trim();\n    if (username) \x7b\n        localStorage.setItem(\x27gameUsername\x27, username);\n        document.getElementById(\x27currentUser\x27).innerHTML = \x60Playing as: <strong>$\x7busername\x7d</strong>\x60;\n        document.getElementById(\x27username\x27).value = \x27\x27;\n    \x7d\n\x7d\n\n// Load username on page load\nwindow.addEventListener(\x27load\x27, function() \x7b\n    const savedUsername = localStorage.getItem(\x27gameUsername\x27);\n    if (savedUsername) \x7b\n        document.getElementById(\x27currentUser\x27).innerHTML = \x60Playing as: <strong>$\x7bsavedUsername\x7d</strong>\x60;\n    \x7d\n\x7d);\n</script>\n"

/-- The literal assigned to `popup_styles` in `_enhance_game_files`. -/
def popup_styles : String :=
  "\n/* Level Popup Styles */\n.level-popup \x7b\n    position: fixed;\n    top: 0;\n    left: 0;\n    width: 100%;\n    height: 100%;\n    display: flex;\n    justify-content: center;\n    align-items: center;\n    pointer-events: none;\n    z-index: 9999;\n    animation: popupAppear 0.3s ease-out;\n\x7d\n\n.popup-content \x7b\n    background: linear-gradient(135deg, #667eea 0%, #764ba2 100%);\n    color: white;\n    padding: 30px 60px;\n    border-radius: 20px;\n    box-shadow: 0 10px 30px rgba(0,0,0,0.3);\n    text-align: center;\n    transform: scale(0);\n    animation: popupScale 0.3s ease-out forwards;\n\x7d\n\n.popup-icon \x7b\n    font-size: 48px;\n    margin-bottom: 10px;\n\x7d\n\n.popup-text \x7b\n    font-size: 36px;\n    font-weight: bold;\n    text-shadow: 2px 2px 4px rgba(0,0,0,0.3);\n\x7d\n\n.level-popup.fade-out \x7b\n    animation: fadeOut 0.5s ease-out forwards;\n\x7d\n\n@keyframes popupAppear \x7b\n    from \x7b opacity: 0; \x7d\n    to \x7b opacity: 1; \x7d\n\x7d\n\n@keyframes popupScale \x7b\n    from \x7b transform: scale(0); \x7d\n    to \x7b transform: scale(1); \x7d\n\x7d\n\n@keyframes fadeOut \x7b\n    from \x7b opacity: 1; \x7d\n    to \x7b opacity: 0; \x7d\n\x7d\n\n/* Username Section Styles */\n.username-section \x7b\n    background: linear-gradient(135deg, #4facfe 0%, #00f2fe 100%);\n    padding: 15px;\n    border-radius: 10px;\n    margin-bottom: 20px;\n    color: white;\n\x7d\n\n.username-container \x7b\n    display: flex;\n    gap: 10px;\n    align-items: center;\n    flex-wrap: wrap;\n    justify-content: center;\n\x7d\n\n.username-container label \x7b\n    font-weight: bold;\n    font-size: 16px;\n\x7d\n\n.username-container input \x7b\n    padding: 8px 15px;\n    border: none;\n    border-radius: 5px;\n    font-size: 14px;\n    flex: 1;\n    min-width: 200px;\n\x7d\n\n.username-container button \x7b\n    padding: 8px 20px;\n    background: #ff6b6b;\n    color: white;\n    border: none;\n    border-radius: 5px;\n    cursor: pointer;\n    font-weight: bold;\n    transition: transform 0.2s;\n\x7d\n\n.username-container button:hover \x7b\n    transform: scale(1.05);\n    background: #ff5252;\n\x7d\n\n.current-user \x7b\n    font-size: 16px;\n    padding: 5px 15px;\n    background: rgba(255,255,255,0.2);\n    border-radius: 20px;\n\x7d\n\n/* Obstacle Styles (will be used in game.js) */\n.obstacle \x7b\n    transition: transform 0.1s;\n\x7d\n\n.obstacle-danger \x7b\n    animation: pulse 1s infinite;\n\x7d\n\n@keyframes pulse \x7b\n    0% \x7b transform: scale(1); \x7d\n    50% \x7b transform: scale(1.1); \x7d\n    100% \x7b transform: scale(1); \x7d\n\x7d\n"

/-- The `index.html` template of `_create_enhanced_fallback` (an f-string; interpolated fields become arguments). -/
def fallback_index_html (character action collectible controls obstacles : String) : String :=
  "<!DOCTYPE html>\n<html lang=\"en\">\n<head>\n    <meta charset=\"UTF-8\">\n    <meta name=\"viewport\" content=\"width=device-width, initial-scale=1.0\">\n    <title>" ++ character ++ " " ++ action ++ " " ++ collectible ++ "</title>\n    <link rel=\"stylesheet\" href=\"style.css\">\n</head>\n<body>\n    <!-- Username Section -->\n    <div class=\"username-section\">\n        <div class=\"username-container\">\n            <label for=\"username\">👤 Player Name:</label>\n            <input type=\"text\" id=\"username\" placeholder=\"Enter your name\" maxlength=\"20\">\n            <button onclick=\"saveUsername()\">Save</button>\n            <span id=\"currentUser\" class=\"current-user\"></span>\n        </div>\n    </div>\n    \n    <div class=\"game-wrapper\">\n        <h1>" ++ character ++ " " ++ action ++ " " ++ collectible ++ "</h1>\n        \n        <div class=\"stats\">\n            <div class=\"stat\">Score: <span id=\"score\">0</span></div>\n            <div class=\"stat\">Level: <span id=\"level\">1</span></div>\n            <div class=\"stat\">Time: <span id=\"timer\">30</span>s</div>\n        </div>\n        \n        <canvas id=\"gameCanvas\" width=\"800\" height=\"400\"></canvas>\n        \n        <div class=\"controls\">\n            <p>Controls: " ++ controls ++ "</p>\n            <p>Collect " ++ collectible ++ " to score. Avoid " ++ obstacles ++ "! Level up every 3 collected.</p>\n        </div>\n        \n        <button onclick=\"resetGame()\">New Game</button>\n        <button id=\"saveScoreBtn\" class=\"save-score-btn\" style=\"display:none;\" onclick=\"saveCurrentScore()\">Save Score to Leaderboard</button>\n    </div>\n    \n    <!-- Leaderboard Section -->\n    <div class=\"leaderboard-section\">\n        <div id=\"leaderboard\" class=\"leaderboard\">\n            <h3>🏆 Leaderboard</h3>\n            <p>Loading...</p>\n        </div>\n    </div>\n    \n    <script src=\"game.js\"></script>\n</body>\n</html>"

/-- The `style.css` template of `_create_enhanced_fallback` (an f-string; interpolated fields become arguments). -/
def fallback_style_css : String :=
  "* \x7b\n    margin: 0;\n    padding: 0;\n    box-sizing: border-box;\n\x7d\n\nbody \x7b\n    font-family: \x27Segoe UI\x27, Tahoma, Geneva, Verdana, sans-serif;\n    background: linear-gradient(135deg, #667eea 0%, #764ba2 100%);\n    min-height: 100vh;\n    display: flex;\n    flex-direction: column;\n    align-items: center;\n    padding: 20px;\n\x7d\n\n/* Username Section */\n.username-section \x7b\n    background: linear-gradient(135deg, #4facfe 0%, #00f2fe 100%);\n    padding: 15px;\n    border-radius: 10px;\n    margin-bottom: 20px;\n    width: 100%;\n    max-width: 900px;\n    color: white;\n\x7d\n\n.username-container \x7b\n    display: flex;\n    gap: 10px;\n    align-items: center;\n    flex-wrap: wrap;\n    justify-content: center;\n\x7d\n\n.username-container label \x7b\n    font-weight: bold;\n    font-size: 16px;\n\x7d\n\n.username-container input \x7b\n    padding: 8px 15px;\n    border: none;\n    border-radius: 5px;\n    font-size: 14px;\n    flex: 1;\n    min-width: 200px;\n\x7d\n\n.username-container button \x7b\n    padding: 8px 20px;\n    background: #ff6b6b;\n    color: white;\n    border: none;\n    border-radius: 5px;\n    cursor: pointer;\n    font-weight: bold;\n    transition: transform 0.2s;\n\x7d\n\n.username-container button:hover \x7b\n    transform: scale(1.05);\n    background: #ff5252;\n\x7d\n\n.current-user \x7b\n    font-size: 16px;\n    padding: 5px 15px;\n    background: rgba(255,255,255,0.2);\n    border-radius: 20px;\n\x7d\n\n.game-wrapper \x7b\n    background: white;\n    border-radius: 20px;\n    padding: 30px;\n    box-shadow: 0 20px 40px rgba(0,0,0,0.3);\n    text-align: center;\n    max-width: 900px;\n    width: 100%;\n\x7d\n\nh1 \x7b\n    color: #333;\n    margin-bottom: 20px;\n    text-transform: capitalize;\n\x7d\n\n.stats \x7b\n    display: flex;\n    justify-content: space-around;\n    margin-bottom: 20px;\n    font-size: 18px;\n\x7d\n\n.stat \x7b\n    background: #f0f0f0;\n    padding: 10px 20px;\n    border-radius: 10px;\n    font-weight: bold;\n\x7d\n\n.stat span \x7b\n    color: #667eea;\n    font-size: 24px;\n    margin-left: 5px;\n\x7d\n\n#gameCanvas \x7b\n    border: 3px solid #333;\n    border-radius: 10px;\n    background: #f9f9f9;\n    margin-bottom: 20px;\n    width: 100%;\n    height: auto;\n\x7d\n\n.controls \x7b\n    margin: 20px 0;\n    color: #666;\n    line-height: 1.6;\n\x7d\n\nbutton \x7b\n    background: #667eea;\n    color: white;\n    border: none;\n    padding: 12px 40px;\n    border-radius: 25px;\n    font-size: 16px;\n    font-weight: bold;\n    cursor: pointer;\n    transition: transform 0.2s, background 0.2s;\n    margin: 5px;\n\x7d\n\nbutton:hover \x7b\n    background: #764ba2;\n    transform: scale(1.05);\n\x7d\n\n.save-score-btn \x7b\n    background: #4CAF50;\n\x7d\n\n.save-score-btn:hover \x7b\n    background: #45a049;\n\x7d\n\n/* Leaderboard Section */\n.leaderboard-section \x7b\n    margin-top: 30px;\n    padding: 20px;\n    background: linear-gradient(135deg, #f5f7fa 0%, #c3cfe2 100%);\n    border-radius: 10px;\n    box-shadow: 0 4px 6px rgba(0,0,0,0.1);\n    width: 100%;\n    max-width: 900px;\n\x7d\n\n.leaderboard \x7b\n    max-width: 600px;\n    margin: 0 auto;\n\x7d\n\n.leaderboard h3 \x7b\n    color: #333;\n    text-align: center;\n    margin-bottom: 15px;\n    font-size: 24px;\n\x7d\n\n.leaderboard ol \x7b\n    list-style: none;\n    padding: 0;\n\x7d\n\n.leaderboard li \x7b\n    padding: 10px;\n    margin: 5px 0;\n    background: white;\n    border-radius: 5px;\n    box-shadow: 0 2px 4px rgba(0,0,0,0.1);\n    display: flex;\n    align-items: center;\n    gap: 10px;\n    font-size: 14px;\n\x7d\n\n.leaderboard li:first-child \x7b\n    background: linear-gradient(135deg, #FFD700 0%, #FFA500 100%);\n    color: white;\n    font-weight: bold;\n\x7d\n\n.leaderboard li:nth-child(2) \x7b\n    background: linear-gradient(135deg, #C0C0C0 0%, #A0A0A0 100%);\n    color: white;\n\x7d\n\n.leaderboard li:nth-child(3) \x7b\n    background: linear-gradient(135deg, #CD7F32 0%, #8B4513 100%);\n    color: white;\n\x7d\n\n/* Level Popup Styles */\n.level-popup \x7b\n    position: fixed;\n    top: 0;\n    left: 0;\n    width: 100%;\n    height: 100%;\n    display: flex;\n    justify-content: center;\n    align-items: center;\n    pointer-events: none;\n    z-index: 9999;\n    animation: popupAppear 0.3s ease-out;\n\x7d\n\n.popup-content \x7b\n    background: linear-gradient(135deg, #667eea 0%, #764ba2 100%);\n    color: white;\n    padding: 30px 60px;\n    border-radius: 20px;\n    box-shadow: 0 10px 30px rgba(0,0,0,0.3);\n    text-align: center;\n    transform: scale(0);\n    animation: popupScale 0.3s ease-out forwards;\n\x7d\n\n.popup-icon \x7b\n    font-size: 48px;\n    margin-bottom: 10px;\n\x7d\n\n.popup-text \x7b\n    font-size: 36px;\n    font-weight: bold;\n    text-shadow: 2px 2px 4px rgba(0,0,0,0.3);\n\x7d\n\n.level-popup.fade-out \x7b\n    animation: fadeOut 0.5s ease-out forwards;\n\x7d\n\n@keyframes popupAppear \x7b\n    from \x7b opacity: 0; \x7d\n    to \x7b opacity: 1; \x7d\n\x7d\n\n@keyframes popupScale \x7b\n    from \x7b transform: scale(0); \x7d\n    to \x7b transform: scale(1); \x7d\n\x7d\n\n@keyframes fadeOut \x7b\n    from \x7b opacity: 1; \x7d\n    to \x7b opacity: 0; \x7d\n\x7d"

/-- The `game.js` template of `_create_enhanced_fallback` (an f-string; interpolated fields become arguments). -/
def fallback_game_js (obstacles character : String) : String :=
  "// Game configuration\nconst CONFIG = \x7b\n    canvasWidth: 800,\n    canvasHeight: 400,\n    playerSize: 30,\n    playerSpeed: 5,\n    collectibleSize: 20,\n    obstacleSize: 25,\n    baseCollectibleSpeed: 2,\n    baseObstacleSpeed: 2.5,\n    spawnInterval: 1000,\n    obstacleSpawnInterval: 1500,\n    timePerLevel: 30,\n    maxLevel: 10\n\x7d;\n\n// Username management\nlet currentUsername = localStorage.getItem(\x27gameUsername\x27) || \x27Guest\x27;\n\nfunction saveUsername() \x7b\n    const username = document.getElementById(\x27username\x27).value.trim();\n    if (username) \x7b\n        localStorage.setItem(\x27gameUsername\x27, username);\n        currentUsername = username;\n        document.getElementById(\x27currentUser\x27).innerHTML = \x60Playing as: <strong>$\x7busername\x7d</strong>\x60;\n        document.getElementById(\x27username\x27).value = \x27\x27;\n    \x7d\n\x7d\n\n// Load username on startup\nwindow.addEventListener(\x27load\x27, function() \x7b\n    const saved = localStorage.getItem(\x27gameUsername\x27);\n    if (saved) \x7b\n        currentUsername = saved;\n        document.getElementById(\x27currentUser\x27).innerHTML = \x60Playing as: <strong>$\x7bsaved\x7d</strong>\x60;\n    \x7d\n\x7d);\n\n// Leaderboard\nlet leaderboard = [];\n\nfunction loadLeaderboard() \x7b\n    const saved = localStorage.getItem(\x27gameLeaderboard\x27);\n    if (saved) \x7b\n        leaderboard = JSON.parse(saved);\n    \x7d\n    displayLeaderboard();\n\x7d\n\nfunction saveScore(score, level, won) \x7b\n    const entry = \x7b\n        username: currentUsername,\n        score: score,\n        level: level,\n        won: won,\n        date: new Date().toISOString()\n    \x7d;\n    \n    leaderboard.push(entry);\n    leaderboard.sort((a, b) => b.score - a.score);\n    leaderboard = leaderboard.slice(0, 10);\n    \n    localStorage.setItem(\x27gameLeaderboard\x27, JSON.stringify(leaderboard));\n    displayLeaderboard();\n\x7d\n\nfunction displayLeaderboard() \x7b\n    const leaderboardEl = document.getElementById(\x27leaderboard\x27);\n    if (!leaderboardEl) return;\n    \n    let html = \x27<h3>🏆 Leaderboard</h3>\x27;\n    if (leaderboard.length === 0) \x7b\n        html += \x27<p>No scores yet. Be the first!</p>\x27;\n    \x7d else \x7b\n        html += \x27<ol>\x27;\n        leaderboard.forEach((entry, index) => \x7b\n            const medal = index === 0 ? \x27🥇\x27 : index === 1 ? \x27🥈\x27 : index === 2 ? \x27🥉\x27 : \x27📌\x27;\n            html += \x60<li>$\x7bmedal\x7d $\x7bentry.username\x7d: $\x7bentry.score\x7d points (Level $\x7bentry.level\x7d)</li>\x60;\n        \x7d);\n        html += \x27</ol>\x27;\n    \x7d\n    \n    leaderboardEl.innerHTML = html;\n\x7d\n\n// Level popup\nfunction showLevelUp() \x7b\n    const level = game.level;\n    const popup = document.createElement(\x27div\x27);\n    popup.className = \x27level-popup\x27;\n    popup.innerHTML = \x60\n        <div class=\"popup-content\">\n            <div class=\"popup-icon\">⭐</div>\n            <div class=\"popup-text\">Level $\x7blevel\x7d!</div>\n        </div>\n    \x60;\n    document.body.appendChild(popup);\n    \n    setTimeout(() => \x7b\n        popup.classList.add(\x27fade-out\x27);\n        setTimeout(() => popup.remove(), 500);\n    \x7d, 1500);\n\x7d\n\n// Game state\nlet game = \x7b\n    score: 0,\n    level: 1,\n    timeLeft: CONFIG.timePerLevel,\n    gameRunning: true,\n    player: \x7b\n        x: 400,\n        y: 350,\n        size: CONFIG.playerSize\n    \x7d,\n    collectibles: [],\n    obstacles: []\n\x7d;\n\n// DOM elements\nconst canvas = document.getElementById(\x27gameCanvas\x27);\nconst ctx = canvas.getContext(\x272d\x27);\nconst scoreElement = document.getElementById(\x27score\x27);\nconst levelElement = document.getElementById(\x27level\x27);\nconst timerElement = document.getElementById(\x27timer\x27);\n\n// Controls\nconst keys = \x7b\x7d;\ndocument.addEventListener(\x27keydown\x27, (e) => keys[e.key] = true);\ndocument.addEventListener(\x27keyup\x27, (e) => keys[e.key] = false);\n\n// Timers\nlet spawnInterval;\nlet obstacleInterval;\nlet gameTimer;\n\nfunction startGame() \x7b\n    game = \x7b\n        score: 0,\n        level: 1,\n        timeLeft: CONFIG.timePerLevel,\n        gameRunning: true,\n        player: \x7b\n            x: 400,\n            y: 350,\n            size: CONFIG.playerSize\n        \x7d,\n        collectibles: [],\n        obstacles: []\n    \x7d;\n    \n    updateDisplay();\n    document.getElementById(\x27saveScoreBtn\x27).style.display = \x27none\x27;\n    \n    // Clear old intervals\n    if (spawnInterval) clearInterval(spawnInterval);\n    if (obstacleInterval) clearInterval(obstacleInterval);\n    if (gameTimer) clearInterval(gameTimer);\n    \n    // Start new intervals\n    spawnInterval = setInterval(spawnCollectible, CONFIG.spawnInterval);\n    obstacleInterval = setInterval(spawnObstacle, CONFIG.obstacleSpawnInterval);\n    gameTimer = setInterval(updateTimer, 1000);\n\x7d\n\nfunction spawnCollectible() \x7b\n    if (!game.gameRunning) return;\n    \n    const speedMultiplier = 1 + (game.level - 1) * 0.2;\n    game.collectibles.push(\x7b\n        x: canvas.width,\n        y: Math.random() * (canvas.height - 100) + 50,\n        size: CONFIG.collectibleSize,\n        speed: CONFIG.baseCollectibleSpeed * speedMultiplier,\n        collected: false\n    \x7d);\n\x7d\n\nfunction spawnObstacle() \x7b\n    if (!game.gameRunning) return;\n    \n    const speedMultiplier = 1 + (game.level - 1) * 0.25;\n    game.obstacles.push(\x7b\n        x: canvas.width,\n        y: Math.random() * (canvas.height - 100) + 50,\n        size: CONFIG.obstacleSize,\n        speed: CONFIG.baseObstacleSpeed * speedMultiplier\n    \x7d);\n\x7d\n\nfunction updateTimer() \x7b\n    if (!game.gameRunning) return;\n    \n    game.timeLeft--;\n    timerElement.textContent = game.timeLeft;\n    \n    if (game.timeLeft <= 0) \x7b\n        gameOver(\"Time\x27s up!\");\n    \x7d\n\x7d\n\nfunction update() \x7b\n    if (!game.gameRunning) return;\n    \n    // Move player\n    if (keys[\x27ArrowLeft\x27] || keys[\x27a\x27]) game.player.x -= CONFIG.playerSpeed;\n    if (keys[\x27ArrowRight\x27] || keys[\x27d\x27]) game.player.x += CONFIG.playerSpeed;\n    if (keys[\x27ArrowUp\x27] || keys[\x27w\x27]) game.player.y -= CONFIG.playerSpeed;\n    if (keys[\x27ArrowDown\x27] || keys[\x27s\x27]) game.player.y += CONFIG.playerSpeed;\n    \n    // Keep player in bounds\n    game.player.x = Math.max(0, Math.min(canvas.width - game.player.size, game.player.x));\n    game.player.y = Math.max(0, Math.min(canvas.height - game.player.size, game.player.y));\n    \n    // Move collectibles and check collisions\n    for (let i = game.collectibles.length - 1; i >= 0; i--) \x7b\n        const item = game.collectibles[i];\n        item.x -= item.speed;\n        \n        // Check collision with player\n        if (!item.collected &&\n            game.player.x < item.x + item.size &&\n            game.player.x + game.player.size > item.x &&\n            game.player.y < item.y + item.size &&\n            game.player.y + game.player.size > item.y) \x7b\n            \n            item.collected = true;\n            game.score += 10;\n            game.collectibles.splice(i, 1);\n            \n            // Check level up (every 3 items)\n            if (game.score % 30 === 0) \x7b\n                game.level++;\n                levelElement.textContent = game.level;\n                game.timeLeft = CONFIG.timePerLevel;\n                showLevelUp();\n                \n                if (game.level >= CONFIG.maxLevel) \x7b\n                    win();\n                \x7d\n            \x7d\n        \x7d\n        // Remove if off screen\n        else if (item.x + item.size < 0) \x7b\n            game.collectibles.splice(i, 1);\n        \x7d\n    \x7d\n    \n    // Move obstacles and check collisions\n    for (let i = game.obstacles.length - 1; i >= 0; i--) \x7b\n        const obstacle = game.obstacles[i];\n        obstacle.x -= obstacle.speed;\n        \n        // Check collision with player\n        if (game.player.x < obstacle.x + obstacle.size &&\n            game.player.x + game.player.size > obstacle.x &&\n            game.player.y < obstacle.y + obstacle.size &&\n            game.player.y + game.player.size > obstacle.y) \x7b\n            \n            gameOver(\"Hit by " ++ obstacles ++ "!\");\n            return;\n        \x7d\n        \n        // Remove if off screen\n        if (obstacle.x + obstacle.size < 0) \x7b\n            game.obstacles.splice(i, 1);\n        \x7d\n    \x7d\n    \n    updateDisplay();\n\x7d\n\nfunction updateDisplay() \x7b\n    scoreElement.textContent = game.score;\n    levelElement.textContent = game.level;\n\x7d\n\nfunction gameOver(message) \x7b\n    game.gameRunning = false;\n    clearInterval(spawnInterval);\n    clearInterval(obstacleInterval);\n    clearInterval(gameTimer);\n    \n    const popup = document.createElement(\x27div\x27);\n    popup.className = \x27level-popup\x27;\n    popup.innerHTML = \x60\n        <div class=\"popup-content\" style=\"background: linear-gradient(135deg, #ff6b6b 0%, #ff5252 100%);\">\n            <div class=\"popup-icon\">💀</div>\n            <div class=\"popup-text\">$\x7bmessage\x7d</div>\n        </div>\n    \x60;\n    document.body.appendChild(popup);\n    \n    setTimeout(() => \x7b\n        popup.classList.add(\x27fade-out\x27);\n        setTimeout(() => popup.remove(), 500);\n    \x7d, 2000);\n    \n    document.getElementById(\x27saveScoreBtn\x27).style.display = \x27inline-block\x27;\n\x7d\n\nfunction win() \x7b\n    game.gameRunning = false;\n    clearInterval(spawnInterval);\n    clearInterval(obstacleInterval);\n    clearInterval(gameTimer);\n    \n    const popup = document.createElement(\x27div\x27);\n    popup.className = \x27level-popup\x27;\n    popup.innerHTML = \x60\n        <div class=\"popup-content\" style=\"background: linear-gradient(135deg, #4CAF50 0%, #45a049 100%);\">\n            <div class=\"popup-icon\">🏆</div>\n            <div class=\"popup-text\">YOU WIN!</div>\n        </div>\n    \x60;\n    document.body.appendChild(popup);\n    \n    setTimeout(() => \x7b\n        popup.classList.add(\x27fade-out\x27);\n        setTimeout(() => popup.remove(), 500);\n    \x7d, 2000);\n    \n    document.getElementById(\x27saveScoreBtn\x27).style.display = \x27inline-block\x27;\n\x7d\n\nfunction saveCurrentScore() \x7b\n    saveScore(game.score, game.level, game.level >= CONFIG.maxLevel);\n    document.getElementById(\x27saveScoreBtn\x27).style.display = \x27none\x27;\n\x7d\n\nfunction draw() \x7b\n    // Clear canvas\n    ctx.clearRect(0, 0, canvas.width, canvas.height);\n    \n    // Draw background\n    ctx.fillStyle = \x27#f0f0f0\x27;\n    ctx.fillRect(0, 0, canvas.width, canvas.height);\n    \n    // Draw collectibles\n    game.collectibles.forEach(item => \x7b\n        ctx.fillStyle = \x27#FFD700\x27;\n        ctx.beginPath();\n        ctx.arc(item.x + item.size/2, item.y + item.size/2, item.size/2, 0, Math.PI * 2);\n        ctx.fill();\n        \n        ctx.fillStyle = \x27#FFA500\x27;\n        ctx.beginPath();\n        ctx.arc(item.x + item.size/2 - 3, item.y + item.size/2 - 3, 3, 0, Math.PI * 2);\n        ctx.fill();\n    \x7d);\n    \n    // Draw obstacles\n    game.obstacles.forEach(obstacle => \x7b\n        ctx.fillStyle = \x27#ff4444\x27;\n        ctx.beginPath();\n        ctx.arc(obstacle.x + obstacle.size/2, obstacle.y + obstacle.size/2, obstacle.size/2, 0, Math.PI * 2);\n        ctx.fill();\n        \n        // Draw danger symbol\n        ctx.fillStyle = \x27white\x27;\n        ctx.font = \x27bold 16px Arial\x27;\n        ctx.fillText(\x27⚠\x27, obstacle.x + obstacle.size/2 - 8, obstacle.y + obstacle.size/2 + 5);\n    \x7d);\n    \n    // Draw player (character)\n    ctx.fillStyle = \x27#4CAF50\x27;\n    ctx.fillRect(game.player.x, game.player.y, game.player.size, game.player.size);\n    \n    // Add eyes\n    ctx.fillStyle = \x27white\x27;\n    ctx.beginPath();\n    ctx.arc(game.player.x + 8, game.player.y + 8, 4, 0, Math.PI * 2);\n    ctx.fill();\n    ctx.beginPath();\n    ctx.arc(game.player.x + 22, game.player.y + 8, 4, 0, Math.PI * 2);\n    ctx.fill();\n    \n    ctx.fillStyle = \x27black\x27;\n    ctx.beginPath();\n    ctx.arc(game.player.x + 8, game.player.y + 8, 2, 0, Math.PI * 2);\n    ctx.fill();\n    ctx.beginPath();\n    ctx.arc(game.player.x + 22, game.player.y + 8, 2, 0, Math.PI * 2);\n    ctx.fill();\n    \n    // Add label\n    ctx.fillStyle = \x27#333\x27;\n    ctx.font = \x2712px Arial\x27;\n    ctx.fillText(\"" ++ character ++ "\", game.player.x, game.player.y - 5);\n\x7d\n\nfunction gameLoop() \x7b\n    update();\n    draw();\n    requestAnimationFrame(gameLoop);\n\x7d\n\nfunction resetGame() \x7b\n    startGame();\n\x7d\n\n// Initialize\nloadLeaderboard();\nstartGame();\ngameLoop();\n\n// Prevent page scrolling\nwindow.addEventListener(\x27keydown\x27, (e) => \x7b\n    if ([\x27ArrowUp\x27, \x27ArrowDown\x27, \x27ArrowLeft\x27, \x27ArrowRight\x27, \x27 \x27].includes(e.key)) \x7b\n        e.preventDefault();\n    \x7d\n\x7d);"

/-- `AgenticGameBuilder._enhance_game_files` (lines 455-677): prepend the
level-popup block to `game.js`, insert the username section after `<body>`
and the username script before `</body>` in `index.html`, and append the
popup styles to `style.css`; each step is skipped when the file key is
absent.  (The source also reads the `obstacles` requirement into a local
that is never used.)  `applyIfPresent` is the shared shape of one guarded
update. -/
def applyIfPresent (files : Files) (key : String) (f : String → String) : Files :=
  match getF files key with
  | some v => setF files key (f v)
  | none => files

/-- `AgenticGameBuilder._enhance_game_files`, continued: the three guarded
updates, each a `if key in files: files[key] = ...` step expressed through
`applyIfPresent`. -/
def enhance_game_files (files : Files) (requirements : Req) : Files :=
  let _obstacles := getD requirements "obstacles" "enemies"
  let files := applyIfPresent files "game.js"
    fun game_js => level_popup_code ++ "\n" ++ game_js
  let files := applyIfPresent files "index.html"
    fun html =>
      pyReplace (pyReplace html "<body>" ("<body>\n" ++ username_section))
        "</body>" (username_script ++ "\n</body>")
  applyIfPresent files "style.css" fun css => css ++ "\n" ++ popup_styles

/-- `AgenticGameBuilder._create_enhanced_fallback` (lines 679-1412): the
deterministic bundle built purely from the RequirementSpec (`plan` is passed
but unused by the source body). -/
def create_enhanced_fallback (requirements : Req) (_plan : Req) : Files :=
  let character := getD requirements "character" "Player"
  let collectible := getD requirements "collectibles" "items"
  let obstacles := getD requirements "obstacles" "enemies"
  let action := getD requirements "character_action" "collects"
  let controls := getD requirements "controls" "arrow keys"
  [("index.html", fallback_index_html character action collectible controls obstacles),
   ("style.css", fallback_style_css),
   ("game.js", fallback_game_js obstacles character)]

/-- `AgenticGameBuilder.execution_phase` (lines 349-453).  The gateway call,
fence-stripping `re.sub` and `json.loads` are external; their combined outcome
is the `parsed` argument (`none` models a parse/gateway failure).  When the
parse succeeded and all three filenames are present the bundle is enhanced and
returned (extra keys are never removed); otherwise control falls through to
the deterministic fallback.  `_save_files` is disk I/O, outside the model. -/
def execution_phase (parsed : Option Files) (plan : Req) (requirements : Req) : Files :=
  match parsed with
  | some files =>
    if ["index.html", "style.css", "game.js"].all (fun key => hasF files key) then
      enhance_game_files files requirements
    else
      create_enhanced_fallback requirements plan
  | none => create_enhanced_fallback requirements plan

/-! ## Clarification phase (src/main.py lines 179-293) -/

/-- The sentinel marker scanned for at line 225. -/
def requirementsClearMarker : String := "REQUIREMENTS_CLEAR"

/-- `self.max_clarifying_questions` (line 135). -/
def max_clarifying_questions : Nat := 3

/-- The hardcoded fallback RequirementSpec (lines 282-293), also returned by
`_create_requirements_from_conversation` when its extraction fails. -/
def fallback_requirements : Req :=
  [("character", "player"),
   ("character_action", "moves and collects items while avoiding obstacles"),
   ("world_setting", "simple game world"),
   ("collectibles", "items"),
   ("obstacles", "enemies"),
   ("progression", "increasing difficulty with more obstacles"),
   ("win_condition", "reach target score"),
   ("lose_condition", "hit by obstacle"),
   ("controls", "arrow keys"),
   ("visual_style", "simple and colorful")]

/-- `_create_requirements_from_conversation` (lines 246-293): one extraction
call whose external regex-scan + `json.loads` outcome is the argument; any
failure substitutes the hardcoded fallback. -/
def create_requirements_from_conversation (extractParsed : Option Req) : Req :=
  match extractParsed with
  | some requirements => requirements
  | none => fallback_requirements

/-- The external collaborators of `clarification_phase`: the gateway reply
per loop iteration (`get_ai_response`), the `json.loads` parse of a sentinel
payload (`none` = the parse raised), the operator answers per iteration
(`input()`), and the parse outcome inside
`_create_requirements_from_conversation`. -/
structure ClarifyEnv where
  responses : Nat → String
  parse : String → Option Req
  answers : Nat → String
  extractParsed : Option Req

/-- What `clarification_phase` produced: the returned RequirementSpec, the
number of gateway exchanges consumed, and the number of questions surfaced to
the operator (= answers collected). -/
structure ClarifyResult where
  requirements : Req
  exchanges : Nat
  answers_collected : Nat
deriving DecidableEq

/-- The `while questions_asked < self.max_clarifying_questions` loop of
`clarification_phase` (lines 216-244), recursing on the remaining question
budget: request a reply; if it contains the sentinel and the text between the
first and second marker occurrence (`response.split(marker)[1].strip()`)
parses, return that payload at once; a failed parse is treated as no sentinel;
otherwise surface the question, collect an answer and continue.  At the bound,
`_create_requirements_from_conversation` makes one extra gateway call. -/
def clarification_loop (env : ClarifyEnv) : Nat → Nat → ClarifyResult
  | 0, questions_asked =>
    ⟨create_requirements_from_conversation env.extractParsed,
      questions_asked + 1, questions_asked⟩
  | remaining + 1, questions_asked =>
    let response := env.responses questions_asked
    let sentinelPayload :=
      if pyContains response requirementsClearMarker then
        env.parse (pyStrip ((pySplit response requirementsClearMarker).getD 1 ""))
      else none
    match sentinelPayload with
    | some requirements => ⟨requirements, questions_asked + 1, questions_asked⟩
    | none => clarification_loop env remaining (questions_asked + 1)

/-- `AgenticGameBuilder.clarification_phase` (lines 179-244). -/
def clarification_phase (env : ClarifyEnv) : ClarifyResult :=
  clarification_loop env max_clarifying_questions 0

/-! ## Support lemmas -/

theorem getF_setF_self {α : Type} (fs : List (String × α)) (k : String) (v : α) :
    getF (setF fs k v) k = some v := by
  induction fs with
  | nil => simp [setF, getF]
  | cons kv rest ih =>
    simp only [setF]
    by_cases h : kv.1 == k
    · simp [h, getF]
    · simp [h, getF, ih]

theorem getF_setF_ne {α : Type} (fs : List (String × α)) {k k' : String} (v : α)
    (h : k ≠ k') : getF (setF fs k v) k' = getF fs k' := by
  induction fs with
  | nil => simp [setF, getF, h]
  | cons kv rest ih =>
    simp only [setF]
    by_cases hk : kv.1 == k
    · have hkk : kv.1 = k := by simpa using hk
      simp [getF, hkk, h, Ne.symm h]
    · simp [hk, getF, ih]

/-! ## Theorems for the claims -/

/-- C5: `get_or_create_user` normalizes the username by trim + lowercase
before lookup, so two usernames agreeing after normalization yield the same
stored profile and the second call creates no second profile (the store is
unchanged). -/
theorem claim_C5_get_or_create_user_normalizes
    (st : UMState) (u1 u2 now1 now2 : String)
    (h : normalizeUsername u1 = normalizeUsername u2) :
    (get_or_create_user (get_or_create_user st u1 now1).1 u2 now2).2
        = (get_or_create_user st u1 now1).2 ∧
    (get_or_create_user (get_or_create_user st u1 now1).1 u2 now2).1.users
        = (get_or_create_user st u1 now1).1.users := by
  simp only [get_or_create_user, ← h]
  cases hc : getF st.users (normalizeUsername u1) with
  | some p => simp [hc]
  | none => simp [hc, getF_setF_self]

/-- C5 witness: "Alice" and then "alice" return the same profile with no
second profile created. -/
theorem claim_C5_witness :
    normalizeUsername "Alice" = normalizeUsername "alice" ∧
    ((get_or_create_user (get_or_create_user ⟨[], none, .missing⟩ "Alice" "t1").1
        "alice" "t2").2
      = (get_or_create_user ⟨[], none, .missing⟩ "Alice" "t1").2 ∧
    (get_or_create_user (get_or_create_user ⟨[], none, .missing⟩ "Alice" "t1").1
        "alice" "t2").1.users
      = (get_or_create_user ⟨[], none, .missing⟩ "Alice" "t1").1.users) :=
  ⟨by decide,
   claim_C5_get_or_create_user_normalizes ⟨[], none, .missing⟩ "Alice" "alice" "t1" "t2"
     (by decide)⟩

/-- The history update inside `recordResult`: append the entry, then keep only
the last 10 when the list exceeds 10. -/
theorem recordResult_games_history (p : UserProfile) (t : String) (s l : Int)
    (w : Bool) (n : String) :
    (recordResult p t s l w n).games_history
      = if (p.games_history ++ [GameResult.mk t s l w n]).length > 10
        then (p.games_history ++ [GameResult.mk t s l w n]).drop
              ((p.games_history ++ [GameResult.mk t s l w n]).length - 10)
        else p.games_history ++ [GameResult.mk t s l w n] := by
  simp only [recordResult]
  split <;> rfl

/-- C6: each `update_user_score` bumps `games_played` by one, adds the score
to `total_score` and raises `high_score` to the maximum of its old value and
the score (stated on `recordResult`, the profile update it performs on the
current user); concretely, a fresh profile after scores 10, 30, 20 shows
`games_played = 3`, `total_score = 60`, `high_score = 30`. -/
theorem claim_C6_record_result_counters :
    (∀ (p : UserProfile) (t : String) (s l : Int) (w : Bool) (n : String),
      (recordResult p t s l w n).games_played = p.games_played + 1 ∧
      (recordResult p t s l w n).total_score = p.total_score + s ∧
      (recordResult p t s l w n).high_score = max p.high_score s) ∧
    getF (update_user_score (update_user_score (update_user_score
        (get_or_create_user ⟨[], none, .missing⟩ "alice" "t0").1
        "game" 10 1 false "t1") "game" 30 2 true "t2") "game" 20 1 false "t3").users
        "alice"
      = some { username := "alice", display_name := "Alice", games_played := 3,
               total_score := 60, high_score := 30,
               games_history := [⟨"game", 10, 1, false, "t1"⟩,
                 ⟨"game", 30, 2, true, "t2"⟩, ⟨"game", 20, 1, false, "t3"⟩],
               created_at := "t0", last_played := some "t3" } := by
  constructor
  · intro p t s l w n
    refine ⟨?_, ?_, ?_⟩
    · simp only [recordResult]
      split <;> rfl
    · simp only [recordResult]
      split <;> rfl
    · simp only [recordResult]
      split
      · next hgt =>
        simp [max_eq_right (le_of_lt hgt)]
      · next hle =>
        simp [max_eq_left (by omega : s ≤ p.high_score)]
  · decide

/-- C7: the history bound is kept on every append — after any single
`recordResult` the history has length at most 10 — and a fresh profile after
12 recorded results holds exactly the 10 most recent entries, oldest first. -/
theorem claim_C7_history_bound :
    (∀ (p : UserProfile) (t : String) (s l : Int) (w : Bool) (n : String),
      (recordResult p t s l w n).games_history.length ≤ 10) ∧
    getF (update_user_score (update_user_score (update_user_score
        (update_user_score (update_user_score (update_user_score
        (update_user_score (update_user_score (update_user_score
        (update_user_score (update_user_score (update_user_score
        (get_or_create_user ⟨[], none, .missing⟩ "alice" "t0").1
        "game" 1 1 false "d1") "game" 2 2 false "d2") "game" 3 3 false "d3")
        "game" 4 4 false "d4") "game" 5 5 false "d5") "game" 6 6 false "d6")
        "game" 7 7 false "d7") "game" 8 8 false "d8") "game" 9 9 false "d9")
        "game" 10 10 false "d10") "game" 11 11 false "d11")
        "game" 12 12 false "d12").users "alice"
      = some { username := "alice", display_name := "Alice", games_played := 12,
               total_score := 78, high_score := 12,
               games_history := [⟨"game", 3, 3, false, "d3"⟩,
                 ⟨"game", 4, 4, false, "d4"⟩, ⟨"game", 5, 5, false, "d5"⟩,
                 ⟨"game", 6, 6, false, "d6"⟩, ⟨"game", 7, 7, false, "d7"⟩,
                 ⟨"game", 8, 8, false, "d8"⟩, ⟨"game", 9, 9, false, "d9"⟩,
                 ⟨"game", 10, 10, false, "d10"⟩, ⟨"game", 11, 11, false, "d11"⟩,
                 ⟨"game", 12, 12, false, "d12"⟩],
               created_at := "t0", last_played := some "d12" } := by
  constructor
  · intro p t s l w n
    rw [recordResult_games_history]
    split
    · next h =>
      simp only [List.length_drop]
      omega
    · next h =>
      simp only [not_lt, List.length_append, List.length_cons, List.length_nil] at h ⊢
      omega
  · decide

/-- C10: when `users.json` exists but cannot be read or parsed, `load_users`
silently initializes the empty store (the handler swallows the error and the
function is total), every previously persisted profile is absent, and the
next mutation — here a `get_or_create_user` — rewrites the file from that
empty state, so the file afterwards holds exactly the one new profile. -/
theorem claim_C10_corrupt_store_resets (uname now : String) :
    load_users .corrupt = [] ∧
    (∀ k, getF (load_users .corrupt) k = none) ∧
    (get_or_create_user ⟨load_users .corrupt, none, .corrupt⟩ uname now).1.file
      = .parsed [(normalizeUsername uname,
          freshProfile (normalizeUsername uname) now)] := by
  refine ⟨rfl, fun k => rfl, ?_⟩
  simp [get_or_create_user, load_users, getF, setF, save_users]

/-- If the inserted entry has the filtered score, it comes out at the head of
the filtered insertion: the entries skipped over by `orderedInsert` all have
strictly larger scores and are dropped by the filter. -/
theorem filter_orderedInsert_pos (k : Int) (a : LBEntry) (ha : a.high_score = k) :
    ∀ l : List LBEntry,
      (l.orderedInsert lbRel a).filter (fun e => e.high_score == k)
        = a :: l.filter fun e => e.high_score == k
  | [] => by simp [List.orderedInsert, ha]
  | b :: t => by
    by_cases hr : lbRel a b
    · simp [List.orderedInsert, if_pos hr, ha]
    · have hb : ¬ b.high_score = k := by
        simp only [lbRel, not_le] at hr
        omega
      simp [List.orderedInsert, if_neg hr, hb, filter_orderedInsert_pos k a ha t]

/-- If the inserted entry does not have the filtered score, the filtered
insertion is the filtered original list. -/
theorem filter_orderedInsert_neg (k : Int) (a : LBEntry) (ha : ¬ a.high_score = k) :
    ∀ l : List LBEntry,
      (l.orderedInsert lbRel a).filter (fun e => e.high_score == k)
        = l.filter fun e => e.high_score == k
  | [] => by simp [List.orderedInsert, ha]
  | b :: t => by
    by_cases hr : lbRel a b
    · simp [List.orderedInsert, if_pos hr, ha]
    · simp only [List.orderedInsert, if_neg hr, List.filter_cons]
      rw [filter_orderedInsert_neg k a ha t]

/-- Stability of the descending sort: for every score value, restricting the
sorted list to the entries of that score yields exactly those entries in
their original (insertion) order. -/
theorem filter_insertionSort (k : Int) :
    ∀ l : List LBEntry,
      (l.insertionSort lbRel).filter (fun e => e.high_score == k)
        = l.filter fun e => e.high_score == k
  | [] => rfl
  | a :: t => by
    by_cases ha : a.high_score = k
    · simp only [List.insertionSort, filter_orderedInsert_pos k a ha,
        filter_insertionSort k t, List.filter_cons]
      simp [ha]
    · simp only [List.insertionSort, filter_orderedInsert_neg k a ha,
        filter_insertionSort k t, List.filter_cons]
      simp [ha]

/-- C8: the leaderboard is sorted in descending `high_score` order, has at
most 10 entries, and ties keep their original insertion order: for every
score value, the entries of that score appear in the sorted list exactly as
they appear in the store. -/
theorem claim_C8_leaderboard_sorted (users : Users) :
    List.Sorted lbRel (get_leaderboard users) ∧
    (get_leaderboard users).length ≤ 10 ∧
    ∀ k : Int,
      ((leaderboardEntries users).insertionSort lbRel).filter
          (fun e => e.high_score == k)
        = (leaderboardEntries users).filter fun e => e.high_score == k := by
  refine ⟨?_, ?_, fun k => filter_insertionSort k (leaderboardEntries users)⟩
  · exact List.Pairwise.sublist (List.take_sublist _ _)
      (List.sorted_insertionSort lbRel (leaderboardEntries users))
  · simp [get_leaderboard]

/-- The 10 canonical RequirementSpec keys (spec section 3). -/
def canonicalKeys : List String :=
  ["character", "character_action", "world_setting", "collectibles",
   "obstacles", "progression", "win_condition", "lose_condition",
   "controls", "visual_style"]

/-- A RequirementSpec contains exactly the 10 canonical keys and every value
is non-empty text. -/
def specComplete (req : Req) : Prop :=
  (req.map Prod.fst).Perm canonicalKeys ∧ ∀ kv ∈ req, kv.2 ≠ ""

instance (req : Req) : Decidable (specComplete req) := by
  unfold specComplete
  infer_instance

/-- C9: when the gateway first reply contains the sentinel marker and the
text after it parses as a structured payload, the clarification phase
terminates after exactly one exchange — no question surfaced, no answer
collected — returning the parsed payload unchanged. -/
theorem claim_C9_sentinel_first_reply (env : ClarifyEnv) (req : Req)
    (hmark : pyContains (env.responses 0) requirementsClearMarker = true)
    (hparse : env.parse (pyStrip
        ((pySplit (env.responses 0) requirementsClearMarker).getD 1 "")) = some req) :
    clarification_phase env = ⟨req, 1, 0⟩ := by
  simp only [clarification_phase, max_clarifying_questions, clarification_loop, hmark,
    if_true, reduceIte]
  rw [hparse]

/-- C9 witness: a first reply holding the sentinel plus payload ends the
phase after one exchange with that payload, no answers consumed. -/
theorem claim_C9_witness :
    (pyContains ((fun (_ : Nat) => "REQUIREMENTS_CLEAR\x7b\"a\": \"b\"\x7d") 0)
        requirementsClearMarker = true ∧
      (fun s => if s = "\x7b\"a\": \"b\"\x7d" then some [("a", "b")] else none)
        (pyStrip ((pySplit ((fun (_ : Nat) => "REQUIREMENTS_CLEAR\x7b\"a\": \"b\"\x7d") 0)
          requirementsClearMarker).getD 1 "")) = some [("a", "b")]) ∧
    clarification_phase
        ⟨fun _ => "REQUIREMENTS_CLEAR\x7b\"a\": \"b\"\x7d",
          fun s => if s = "\x7b\"a\": \"b\"\x7d" then some [("a", "b")] else none,
          fun _ => "", none⟩
      = ⟨[("a", "b")], 1, 0⟩ :=
  ⟨⟨by decide, by decide⟩,
    claim_C9_sentinel_first_reply
      ⟨fun _ => "REQUIREMENTS_CLEAR\x7b\"a\": \"b\"\x7d",
        fun s => if s = "\x7b\"a\": \"b\"\x7d" then some [("a", "b")] else none,
        fun _ => "", none⟩
      [("a", "b")] (by decide) (by decide)⟩

/-- C1 counterexample: a first reply whose sentinel payload parses to the
empty object (exactly what the JSON parse returns on `REQUIREMENTS_CLEAR{}`)
is returned as the RequirementSpec without validation, so the result has none
of the 10 canonical keys: the claim that every extraction path yields exactly
the 10 canonical keys with non-empty values is false. -/
theorem claim_C1_counterexample :
    ¬ specComplete (clarification_phase
        ⟨fun _ => "REQUIREMENTS_CLEAR\x7b\x7d",
          fun s => if s = "\x7b\x7d" then some [] else none,
          fun _ => "", none⟩).requirements := by
  decide

/-- C1 amended: only the hardcoded fallback guarantees the shape — the
RequirementSpec substituted when the transcript-level extraction fails
contains exactly the 10 canonical keys with non-empty values, while a
successfully parsed payload (sentinel or transcript path) is returned exactly
as parsed, without any key or value validation. -/
theorem claim_C1_fallback_requirements_complete :
    specComplete (create_requirements_from_conversation none) ∧
    ∀ req : Req, create_requirements_from_conversation (some req) = req :=
  ⟨⟨by decide, by decide⟩, fun req => rfl⟩

/-- `splitFuel` is fuel-irrelevant once the fuel covers the string length. -/
theorem splitFuel_of_le (sep : List Char) :
    ∀ (f1 f2 : Nat) (s : List Char), s.length ≤ f1 → s.length ≤ f2 →
      splitFuel sep f1 s = splitFuel sep f2 s
  | f1, f2, [], _, _ => by
    cases f1 <;> cases f2 <;> rfl
  | 0, f2, c :: rest, h1, h2 => by
    simp at h1
  | f1 + 1, 0, c :: rest, h1, h2 => by
    simp at h2
  | f1 + 1, f2 + 1, c :: rest, h1, h2 => by
    simp only [splitFuel]
    by_cases hc : sep ≠ [] ∧ startsWith sep (c :: rest) = true
    · rw [if_pos hc, if_pos hc]
      have hlen : 1 ≤ sep.length := by
        cases hsep : sep with
        | nil => exact absurd hsep hc.1
        | cons x xs => simp
      have hd1 : ((c :: rest).drop sep.length).length ≤ f1 := by
        simp only [List.length_drop, List.length_cons]
        simp only [List.length_cons] at h1
        omega
      have hd2 : ((c :: rest).drop sep.length).length ≤ f2 := by
        simp only [List.length_drop, List.length_cons]
        simp only [List.length_cons] at h2
        omega
      rw [splitFuel_of_le sep f1 f2 _ hd1 hd2]
    · rw [if_neg hc, if_neg hc]
      have hr1 : rest.length ≤ f1 := by
        simp only [List.length_cons] at h1
        omega
      have hr2 : rest.length ≤ f2 := by
        simp only [List.length_cons] at h2
        omega
      rw [splitFuel_of_le sep f1 f2 rest hr1 hr2]

/-- The split always produces at least one segment. -/
theorem splitFuel_ne_nil (sep : List Char) :
    ∀ (f : Nat) (s : List Char), splitFuel sep f s ≠ []
  | f, [] => by cases f <;> simp [splitFuel]
  | 0, c :: rest => by simp [splitFuel]
  | f + 1, c :: rest => by
    simp only [splitFuel]
    split
    · simp
    · cases h : splitFuel sep f rest with
      | nil => simp
      | cons seg t => simp [h]

/-- Scanning an empty string finds no occurrence. -/
theorem countOccur_nil (sub : List Char) : countOccur sub [] = 0 := rfl

/-- A position where the marker does not match contributes no occurrence. -/
theorem countOccur_cons_of_not_startsWith (sub : List Char) (c : Char)
    (rest : List Char) (h : startsWith sub (c :: rest) = false) :
    countOccur sub (c :: rest) = countOccur sub rest := by
  simp only [countOccur, splitOnPy, List.length_cons, splitFuel]
  rw [if_neg (by simp [h])]
  cases hrest : splitFuel sub rest.length rest with
  | nil => exact absurd hrest (splitFuel_ne_nil sub rest.length rest)
  | cons seg t => simp [hrest]

/-- `startsWith` holds on any extension of the marker itself. -/
theorem startsWith_append_self : ∀ (s t : List Char), startsWith s (s ++ t) = true
  | [], t => rfl
  | c :: cs, t => by simp [startsWith, startsWith_append_self cs t]

/-- A copy of the marker at the scan position is counted exactly once and the
scan resumes right after it. -/
theorem countOccur_self_append (sub x : List Char) (hne : sub ≠ []) :
    countOccur sub (sub ++ x) = 1 + countOccur sub x := by
  cases hs : sub with
  | nil => exact absurd hs hne
  | cons a sub2 =>
    simp only [countOccur, splitOnPy, List.cons_append, List.length_cons,
      List.length_append, splitFuel]
    rw [if_pos ⟨by simp, by
      have hsw := startsWith_append_self (a :: sub2) x
      simpa using hsw⟩]
    have hdrop : (a :: (sub2 ++ x)).drop (a :: sub2).length = x := by
      have hdl := List.drop_left (a :: sub2) x
      simpa using hdl
    rw [List.length_cons] at hdrop
    simp only [List.append_eq, List.length_append]
    rw [hdrop]
    rw [splitFuel_of_le (a :: sub2) (sub2.length + x.length) x.length x (by omega) le_rfl]
    have hnn := splitFuel_ne_nil (a :: sub2) x.length x
    cases hx : splitFuel (a :: sub2) x.length x with
    | nil => exact absurd hx hnn
    | cons seg t =>
      simp only [hx, splitOnPy, List.length_cons]
      omega

/-- Reading the key that `applyIfPresent` updates: the old value mapped. -/
theorem getF_applyIfPresent_self (files : Files) (key : String) (f : String → String) :
    getF (applyIfPresent files key f) key = (getF files key).map f := by
  cases h : getF files key with
  | none => simp [applyIfPresent, h]
  | some v => simp [applyIfPresent, h, getF_setF_self]

/-- Reading any other key through `applyIfPresent`: unchanged. -/
theorem getF_applyIfPresent_ne (files : Files) (key k : String) (f : String → String)
    (h : key ≠ k) :
    getF (applyIfPresent files key f) k = getF files k := by
  cases hv : getF files key with
  | none => simp [applyIfPresent, hv]
  | some v =>
    simp only [applyIfPresent, hv]
    exact getF_setF_ne files (f v) h

/-- What the enhancement pass does to `game.js`: prepend the popup block. -/
theorem getF_enhance_js (files : Files) (req : Req) :
    getF (enhance_game_files files req) "game.js"
      = (getF files "game.js").map fun game_js => level_popup_code ++ "\n" ++ game_js := by
  simp only [enhance_game_files]
  rw [getF_applyIfPresent_ne _ _ _ _ (by decide),
    getF_applyIfPresent_ne _ _ _ _ (by decide),
    getF_applyIfPresent_self]

/-- What the enhancement pass does to `style.css`: append the popup styles. -/
theorem getF_enhance_css (files : Files) (req : Req) :
    getF (enhance_game_files files req) "style.css"
      = (getF files "style.css").map fun css => css ++ "\n" ++ popup_styles := by
  simp only [enhance_game_files]
  rw [getF_applyIfPresent_self,
    getF_applyIfPresent_ne _ _ _ _ (by decide),
    getF_applyIfPresent_ne _ _ _ _ (by decide)]

/-- What the enhancement pass does to `index.html`: the two anchored
replacements. -/
theorem getF_enhance_html (files : Files) (req : Req) :
    getF (enhance_game_files files req) "index.html"
      = (getF files "index.html").map fun html =>
          pyReplace (pyReplace html "<body>" ("<body>\n" ++ username_section))
            "</body>" (username_script ++ "\n</body>") := by
  simp only [enhance_game_files]
  rw [getF_applyIfPresent_ne _ _ _ _ (by decide),
    getF_applyIfPresent_self,
    getF_applyIfPresent_ne _ _ _ _ (by decide)]

/-- String append acts as list append on the underlying characters. -/
theorem str_data_append (a b : String) : (a ++ b).data = a.data ++ b.data := by
  cases a
  cases b
  rfl

/-- The one-character newline string. -/
theorem nl_data : ("\n" : String).data = ['\n'] := rfl

/-- A concatenation whose left part has characters is not the empty string. -/
theorem str_append_ne_empty_left (a b : String) (ha : a.data ≠ []) : a ++ b ≠ "" := by
  intro h
  have hd : (a ++ b).data = [] := by rw [h]
  rw [str_data_append] at hd
  exact ha (List.append_eq_nil.mp hd).1

/-- A concatenation whose right part has characters is not the empty string. -/
theorem str_append_ne_empty_right (a b : String) (hb : b.data ≠ []) : a ++ b ≠ "" := by
  intro h
  have hd : (a ++ b).data = [] := by rw [h]
  rw [str_data_append] at hd
  exact hb (List.append_eq_nil.mp hd).2

/-- C2 amended: the enhancement pass is not idempotent — a second application
prepends the level-popup block to `game.js` again, so on any bundle carrying
`game.js` the doubly-enhanced bundle differs from the singly-enhanced one. -/
theorem claim_C2_enhance_not_idempotent (files : Files) (r1 r2 : Req) (js : String)
    (hjs : getF files "game.js" = some js) :
    getF (enhance_game_files (enhance_game_files files r1) r2) "game.js"
      = some (level_popup_code ++ "\n" ++ (level_popup_code ++ "\n" ++ js)) ∧
    enhance_game_files (enhance_game_files files r1) r2 ≠ enhance_game_files files r1 := by
  have h1 : getF (enhance_game_files files r1) "game.js"
      = some (level_popup_code ++ "\n" ++ js) := by
    rw [getF_enhance_js, hjs]
    rfl
  have h2 : getF (enhance_game_files (enhance_game_files files r1) r2) "game.js"
      = some (level_popup_code ++ "\n" ++ (level_popup_code ++ "\n" ++ js)) := by
    rw [getF_enhance_js, h1]
    rfl
  refine ⟨h2, fun heq => ?_⟩
  rw [heq, h1] at h2
  have hstr := Option.some.inj h2
  have hdata := congrArg String.data hstr
  simp only [str_data_append, nl_data] at hdata
  have hlen := congrArg List.length hdata
  simp only [List.length_append, List.length_cons] at hlen
  omega

/-- C2 witness: on the bundle `{index.html: "<body></body>", style.css: "",
game.js: ""}` the doubly-enhanced `game.js` carries the popup block twice and
differs from the singly-enhanced bundle. -/
theorem claim_C2_witness :
    getF [("index.html", "<body></body>"), ("style.css", ""), ("game.js", "")]
        "game.js" = some "" ∧
    (getF (enhance_game_files (enhance_game_files
          [("index.html", "<body></body>"), ("style.css", ""), ("game.js", "")] [])
          []) "game.js"
        = some (level_popup_code ++ "\n" ++ (level_popup_code ++ "\n" ++ "")) ∧
      enhance_game_files (enhance_game_files
          [("index.html", "<body></body>"), ("style.css", ""), ("game.js", "")] []) []
        ≠ enhance_game_files
            [("index.html", "<body></body>"), ("style.css", ""), ("game.js", "")] []) :=
  ⟨by decide,
    claim_C2_enhance_not_idempotent
      [("index.html", "<body></body>"), ("style.css", ""), ("game.js", "")] [] [] ""
      (by decide)⟩

/-- C2 counterexample: after applying the enhancement pass twice to the
bundle `{index.html: "<body></body>", style.css: "", game.js: ""}`, the
level-popup script block occurs twice (not exactly once) in `game.js` —
occurrences counted as Python `str.count` of the full block text. -/
theorem claim_C2_counterexample :
    ¬ countOccur level_popup_code.data
        (getD (enhance_game_files (enhance_game_files
          [("index.html", "<body></body>"), ("style.css", ""), ("game.js", "")] [])
          []) "game.js" "").data = 1 := by
  have hjs : getF [("index.html", "<body></body>"), ("style.css", ""), ("game.js", "")]
      "game.js" = some "" := by decide
  have h1 : getF (enhance_game_files
        [("index.html", "<body></body>"), ("style.css", ""), ("game.js", "")] [])
        "game.js" = some (level_popup_code ++ "\n" ++ "") := by
    rw [getF_enhance_js, hjs]
    rfl
  have h2 : getF (enhance_game_files (enhance_game_files
        [("index.html", "<body></body>"), ("style.css", ""), ("game.js", "")] []) [])
        "game.js"
      = some (level_popup_code ++ "\n" ++ (level_popup_code ++ "\n" ++ "")) := by
    rw [getF_enhance_js, h1]
    rfl
  have hget : getD (enhance_game_files (enhance_game_files
        [("index.html", "<body></body>"), ("style.css", ""), ("game.js", "")] [])
        []) "game.js" ""
      = level_popup_code ++ "\n" ++ (level_popup_code ++ "\n" ++ "") := by
    simp only [getD, h2]
  rw [hget]
  have hdata : (level_popup_code ++ "\n" ++ (level_popup_code ++ "\n" ++ "")).data
      = level_popup_code.data ++ ('\n' :: (level_popup_code.data ++ ['\n'])) := by
    simp [str_data_append, nl_data]
  rw [hdata]
  rw [countOccur_self_append _ _ (by decide)]
  rw [countOccur_cons_of_not_startsWith _ _ _ (by decide)]
  rw [countOccur_self_append _ _ (by decide)]
  rw [countOccur_cons_of_not_startsWith _ _ _ (by decide)]
  rw [countOccur_nil]
  omega

/-- The fallback bundle has exactly the three fixed filenames, in order. -/
theorem fallback_bundle_keys (req plan : Req) :
    (create_enhanced_fallback req plan).map Prod.fst
      = ["index.html", "style.css", "game.js"] := rfl

/-- The fallback `game.js` template is non-empty for every interpolation. -/
theorem fallback_game_js_ne_empty (obstacles character : String) :
    fallback_game_js obstacles character ≠ "" :=
  str_append_ne_empty_right _ _ (by decide)

/-- The fallback `index.html` template is non-empty for every interpolation. -/
theorem fallback_index_html_ne_empty (c a co ct o : String) :
    fallback_index_html c a co ct o ≠ "" :=
  str_append_ne_empty_right _ _ (by decide)

/-- The fallback stylesheet is non-empty. -/
theorem fallback_style_css_ne_empty : fallback_style_css ≠ "" := by decide

/-- Every file of the fallback bundle has non-empty content. -/
theorem fallback_values_ne_empty (req plan : Req) :
    ∀ kv ∈ create_enhanced_fallback req plan, kv.2 ≠ "" := by
  intro kv hkv
  simp only [create_enhanced_fallback, List.mem_cons, List.not_mem_nil, or_false] at hkv
  rcases hkv with h | h | h <;> subst h
  · exact fallback_index_html_ne_empty _ _ _ _ _
  · exact fallback_style_css_ne_empty
  · exact fallback_game_js_ne_empty _ _

/-- Enhancing the fallback bundle changes it (the popup block is prepended to
its `game.js`), for any requirements. -/
theorem enhance_fallback_changes (req plan req2 : Req) :
    enhance_game_files (create_enhanced_fallback req plan) req2
      ≠ create_enhanced_fallback req plan := by
  intro heq
  have hL := getF_enhance_js (create_enhanced_fallback req plan) req2
  rw [heq] at hL
  have hjs : getF (create_enhanced_fallback req plan) "game.js"
      = some (fallback_game_js (getD req "obstacles" "enemies")
          (getD req "character" "Player")) := rfl
  rw [hjs] at hL
  simp only [Option.map_some'] at hL
  have hstr := Option.some.inj hL
  have hdata := congrArg String.data hstr
  simp only [str_data_append, nl_data] at hdata
  have hlen := congrArg List.length hdata
  simp only [List.length_append, List.length_cons] at hlen
  omega

/-- C3 counterexample: a parsed model reply with the three filenames plus an
extra key, all files empty, passes validation; the returned bundle keeps the
extra key (so it does not contain exactly the three fixed filenames) and its
`index.html` is still empty after the enhancement pass (the `<body>` anchors
are absent, so both insertions are no-ops). -/
theorem claim_C3_counterexample :
    hasF (execution_phase (some [("index.html", ""), ("style.css", ""),
        ("game.js", ""), ("extra.txt", "x")]) [] []) "extra.txt" = true ∧
    getF (execution_phase (some [("index.html", ""), ("style.css", ""),
        ("game.js", ""), ("extra.txt", "x")]) [] []) "index.html" = some "" :=
  ⟨by decide, by decide⟩

/-- C3 amended: every bundle returned by the execution phase contains at
least the three fixed filenames, and its `game.js` and `style.css` contents
are non-empty; on the fallback path the bundle holds exactly the three
filenames with all three contents non-empty.  (On the model path extra parsed
keys are retained and `index.html` may be empty when its anchors are
missing.) -/
theorem claim_C3_bundle_shape (parsed : Option Files) (plan req : Req) :
    hasF (execution_phase parsed plan req) "index.html" = true ∧
    hasF (execution_phase parsed plan req) "style.css" = true ∧
    hasF (execution_phase parsed plan req) "game.js" = true ∧
    (∀ v, getF (execution_phase parsed plan req) "game.js" = some v → v ≠ "") ∧
    (∀ v, getF (execution_phase parsed plan req) "style.css" = some v → v ≠ "") ∧
    (create_enhanced_fallback req plan).map Prod.fst
      = ["index.html", "style.css", "game.js"] ∧
    ∀ kv ∈ create_enhanced_fallback req plan, kv.2 ≠ "" := by
  have hfb4 : ∀ v, getF (create_enhanced_fallback req plan) "game.js" = some v →
      v ≠ "" := by
    intro v hv
    rw [show getF (create_enhanced_fallback req plan) "game.js"
        = some (fallback_game_js (getD req "obstacles" "enemies")
            (getD req "character" "Player")) from rfl] at hv
    rw [← Option.some.inj hv]
    exact fallback_game_js_ne_empty _ _
  have hfb5 : ∀ v, getF (create_enhanced_fallback req plan) "style.css" = some v →
      v ≠ "" := by
    intro v hv
    rw [show getF (create_enhanced_fallback req plan) "style.css"
        = some fallback_style_css from rfl] at hv
    rw [← Option.some.inj hv]
    exact fallback_style_css_ne_empty
  cases parsed with
  | none =>
    exact ⟨rfl, rfl, rfl, hfb4, hfb5, rfl, fallback_values_ne_empty req plan⟩
  | some files =>
    by_cases hall :
        (["index.html", "style.css", "game.js"].all fun key => hasF files key) = true
    · simp only [execution_phase, hall, if_true]
      simp only [List.all_cons, List.all_nil, Bool.and_eq_true, Bool.and_true] at hall
      obtain ⟨hH, hC, hJ⟩ := hall
      obtain ⟨html, hhtml⟩ := Option.isSome_iff_exists.mp hH
      obtain ⟨css, hcss⟩ := Option.isSome_iff_exists.mp hC
      obtain ⟨js, hjs⟩ := Option.isSome_iff_exists.mp hJ
      refine ⟨?_, ?_, ?_, ?_, ?_, rfl, fallback_values_ne_empty req plan⟩
      · simp [hasF, getF_enhance_html, hhtml]
      · simp [hasF, getF_enhance_css, hcss]
      · simp [hasF, getF_enhance_js, hjs]
      · intro v hv
        rw [getF_enhance_js, hjs] at hv
        simp only [Option.map_some'] at hv
        rw [← Option.some.inj hv]
        refine str_append_ne_empty_left _ _ ?_
        rw [str_data_append, nl_data]
        simp
      · intro v hv
        rw [getF_enhance_css, hcss] at hv
        simp only [Option.map_some'] at hv
        rw [← Option.some.inj hv]
        exact str_append_ne_empty_right _ _ (by decide)
    · have hall' :
          (["index.html", "style.css", "game.js"].all fun key => hasF files key) = false :=
        Bool.eq_false_iff.mpr hall
      simp only [execution_phase, hall', if_false]
      exact ⟨rfl, rfl, rfl, hfb4, hfb5, rfl, fallback_values_ne_empty req plan⟩

/-- C3 witness: on the fallback path with empty requirements the returned
`game.js` is the fallback template at the default interpolations, and it is
non-empty. -/
theorem claim_C3_witness :
    getF (execution_phase none [] []) "game.js"
      = some (fallback_game_js "enemies" "Player") ∧
    fallback_game_js "enemies" "Player" ≠ "" :=
  ⟨rfl, (claim_C3_bundle_shape none [] []).2.2.2.1
    (fallback_game_js "enemies" "Player") rfl⟩

/-- C4 counterexample: on the fallback path the execution phase returns the
fallback bundle as built, which is not the enhancement transform applied to
that generated bundle — enhancing it would prepend the popup block to its
`game.js`. -/
theorem claim_C4_counterexample :
    execution_phase none [] []
      ≠ enhance_game_files (create_enhanced_fallback [] []) [] := by
  intro h
  exact enhance_fallback_changes [] [] [] h.symm

/-- C4 amended: the enhancement transform is applied only on the model-derived
path — a successfully parsed bundle with the three filenames is returned as
`enhance_game_files` of it, while the fallback path returns
`_create_enhanced_fallback`'s bundle directly, not passed through the
transform (which would have changed it). -/
theorem claim_C4_enhance_only_model_path (files : Files) (plan req : Req)
    (hall : (["index.html", "style.css", "game.js"].all
        fun key => hasF files key) = true) :
    execution_phase (some files) plan req = enhance_game_files files req ∧
    execution_phase none plan req = create_enhanced_fallback req plan ∧
    enhance_game_files (create_enhanced_fallback req plan) req
      ≠ create_enhanced_fallback req plan := by
  refine ⟨?_, rfl, enhance_fallback_changes req plan req⟩
  simp only [execution_phase, hall, if_true]

/-- C4 witness: the three-file demo bundle takes the enhanced path, and with
empty requirements the fallback path returns the untransformed fallback. -/
theorem claim_C4_witness :
    (["index.html", "style.css", "game.js"].all
        fun key => hasF [("index.html", "<body></body>"), ("style.css", ""),
          ("game.js", "playGame();")] key) = true ∧
    (execution_phase (some [("index.html", "<body></body>"), ("style.css", ""),
          ("game.js", "playGame();")]) [] []
        = enhance_game_files [("index.html", "<body></body>"), ("style.css", ""),
            ("game.js", "playGame();")] [] ∧
      execution_phase none [] [] = create_enhanced_fallback [] [] ∧
      enhance_game_files (create_enhanced_fallback [] []) []
        ≠ create_enhanced_fallback [] []) :=
  ⟨by decide,
    claim_C4_enhance_only_model_path
      [("index.html", "<body></body>"), ("style.css", ""), ("game.js", "playGame();")]
      [] [] (by decide)⟩

end GameBuilder
